import Mathlib

/-!
Verification of the econfig checked-accessor layer (src/econfig.h).

The header wraps libconfig's retrieval primitives with a check-and-abort
pattern: every checked operation either returns the library's result or
prints a diagnostic line to stderr and terminates the process with
EXIT_FAILURE.  The wrapped library itself is an external collaborator, so
its settings tree and path lookup are modelled here from the spec's data
model (groups, arrays, lists, scalars; dot-separated paths; each setting
records its source file and line).  Process termination is made explicit
by the `EResult` type, which records the stderr line and exit status of a
fatal call.
-/

namespace Econfig

/-- Modelled from the spec: a setting node of the external library's
settings tree — a scalar (int or string suffice to expose typed access
and type mismatches), a group of named children, or a list/array of
elements.  Each node records the source file and line it came from,
as reported by `config_setting_source_file` / `config_setting_source_line`. -/
inductive Setting where
  | intS : String → Nat → Int → Setting
  | strS : String → Nat → String → Setting
  | groupS : String → Nat → List (String × Setting) → Setting
  | listS : String → Nat → List Setting → Setting

/-- Modelled from the spec: the library accessor for a setting's source file. -/
def config_setting_source_file : Setting → String
  | .intS f _ _ => f
  | .strS f _ _ => f
  | .groupS f _ _ => f
  | .listS f _ _ => f

/-- Modelled from the spec: the library accessor for a setting's source line. -/
def config_setting_source_line : Setting → Nat
  | .intS _ l _ => l
  | .strS _ l _ => l
  | .groupS _ l _ => l
  | .listS _ l _ => l

/-- Modelled from the spec: `config_setting_get_int` — returns the stored
integer for an int setting and the library's zero default otherwise. -/
def config_setting_get_int : Setting → Int
  | .intS _ _ v => v
  | _ => 0

/-- The ordered children of an aggregate setting (group members, list/array
elements); scalars have none. -/
def settingChildren : Setting → List Setting
  | .groupS _ _ cs => cs.map Prod.snd
  | .listS _ _ cs => cs
  | _ => []

/-- Modelled from the spec: `config_setting_length` — the number of children
of an aggregate setting, 0 for scalars. -/
def config_setting_length (s : Setting) : Int :=
  Int.ofNat (settingChildren s).length

/-- Modelled from the spec: `config_setting_get_elem` — the child at the
given index, or NULL (none) when the index is out of range or the node has
no children. -/
def config_setting_get_elem (s : Setting) (index : Nat) : Option Setting :=
  (settingChildren s)[index]?

/-- Splits a list of characters on the dot path separator, accumulating the
current component in reverse. -/
def splitOnDot : List Char → List Char → List String
  | [], cur => [String.mk cur.reverse]
  | c :: rest, cur =>
    if c = '.' then String.mk cur.reverse :: splitOnDot rest []
    else splitOnDot rest (c :: cur)

/-- Modelled from the spec: the components of a dot-separated path.
Separator characters are skipped (empty components are dropped), matching
the library's path scanner, so a path of only separators has no components
and resolves to the setting it is looked up from. -/
def pathComponents (path : String) : List String :=
  (splitOnDot path.toList []).filter (fun s => s != "")

/-- Looks up a named member in a group's child list. -/
def lookupMember : List (String × Setting) → String → Option Setting
  | [], _ => none
  | (k, v) :: rest, n => if k = n then some v else lookupMember rest n

/-- Walks a component list down the settings tree: each component selects a
named member of a group. -/
def lookupComps : Setting → List String → Option Setting
  | s, [] => some s
  | s, n :: rest =>
    match s with
    | .groupS _ _ cs =>
      match lookupMember cs n with
      | some c => lookupComps c rest
      | none => none
    | _ => none

/-- Modelled from the spec: `config_setting_lookup` — resolves a
dot-separated path relative to a setting node. -/
def config_setting_lookup (s : Setting) (path : String) : Option Setting :=
  lookupComps s (pathComponents path)

/-- Modelled from the spec: a configuration handle holding the root setting
of a parsed document. -/
structure Config where
  root : Setting

/-- Modelled from the spec: `config_lookup` — resolves a path from the
document's root setting. -/
def config_lookup (c : Config) (path : String) : Option Setting :=
  config_setting_lookup c.root path

/-- Modelled from the spec: `config_lookup_int` — succeeds exactly when the
path resolves to an int setting; a miss and a type mismatch both fail. -/
def config_lookup_int (c : Config) (path : String) : Option Int :=
  match config_lookup c path with
  | some (.intS _ _ v) => some v
  | _ => none

/-- Modelled from the spec: `config_setting_lookup_int` — the
setting-relative form of `config_lookup_int`. -/
def config_setting_lookup_int (s : Setting) (name : String) : Option Int :=
  match config_setting_lookup s name with
  | some (.intS _ _ v) => some v
  | _ => none

/-- The observable outcome of a checked econfig operation: a returned value,
process termination with a stderr line and an exit code, or a failed
C `assert`. -/
inductive EResult (α : Type) where
  | ok : α → EResult α
  | fatal : String → Nat → EResult α
  | assertFail : EResult α
deriving DecidableEq

/-- The C standard library's failure exit status. -/
def EXIT_FAILURE : Nat := 1

/-- The stderr line of the `econfig_lookup_error` macro. -/
def econfig_lookup_error_msg (file path : String) : String :=
  "error occured in " ++ file ++ ": unable to find " ++ path ++ "\n"

/-- The stderr line of the `econfig_setting_error` macro. -/
def econfig_setting_error_msg (s : Setting) : String :=
  "error occured in " ++ config_setting_source_file s ++ ":"
    ++ toString (config_setting_source_line s) ++ "\n"

/-- The stderr line of the `econfig_read_error` macro. -/
def econfig_read_error_msg (file : String) (line : Nat) : String :=
  "error occured in " ++ file ++ ":" ++ toString line ++ "\n"

/-- Embeds `econfig_lookup` from src/econfig.h: looks up `path` and the
root path ".", asserts the root lookup is non-NULL, and on a miss of `path`
prints the root setting's source file with the path and exits. -/
def econfig_lookup (config : Config) (path : String) : EResult Setting :=
  match config_lookup config ".", config_lookup config path with
  | none, _ => .assertFail
  | some _, some s => .ok s
  | some s_file, none =>
    .fatal (econfig_lookup_error_msg (config_setting_source_file s_file) path) EXIT_FAILURE

/-- Embeds the `econfig_lookup_value` macro at T = int: on failure of the
typed lookup it resolves the root via the checked `econfig_lookup` and
exits with the lookup-error diagnostic. -/
def econfig_lookup_value_int (config : Config) (path : String) : EResult Int :=
  match config_lookup_int config path with
  | some v => .ok v
  | none =>
    match econfig_lookup config "." with
    | .ok s_file =>
      .fatal (econfig_lookup_error_msg (config_setting_source_file s_file) path) EXIT_FAILURE
    | .fatal m code => .fatal m code
    | .assertFail => .assertFail

/-- Embeds the `econfig_get_value` macro at T = int:
`config_setting_get_int(econfig_lookup(config, path))`. -/
def econfig_get_value_int (config : Config) (path : String) : EResult Int :=
  match econfig_lookup config path with
  | .ok s => .ok (config_setting_get_int s)
  | .fatal m code => .fatal m code
  | .assertFail => .assertFail

/-- Embeds the `econfig_try_get_value` macro at T = int: the path lookup is
evaluated twice, once as the test and once feeding the getter; an absent
path yields 0.  The operation is total — it never terminates the process. -/
def econfig_try_get_value_int (config : Config) (path : String) : Int :=
  if (config_lookup config path).isSome then
    match config_lookup config path with
    | some s => config_setting_get_int s
    | none => 0
  else 0

/-- A single-evaluation form of the try accessor, following the spec's
words ("given an absent path, it returns a zero/default value; given a
present path, it returns the actual value"), for comparison with the
double-evaluation embedding. -/
def econfig_try_get_value_int_single (config : Config) (path : String) : Int :=
  match config_lookup config path with
  | some s => config_setting_get_int s
  | none => 0

/-- Embeds `econfig_setting_lookup` from src/econfig.h. -/
def econfig_setting_lookup (setting : Setting) (path : String) : EResult Setting :=
  match config_setting_lookup setting path with
  | some s => .ok s
  | none =>
    .fatal (econfig_lookup_error_msg (config_setting_source_file setting) path) EXIT_FAILURE

/-- Embeds the `econfig_setting_lookup_value` macro at T = int. -/
def econfig_setting_lookup_value_int (setting : Setting) (name : String) : EResult Int :=
  match config_setting_lookup_int setting name with
  | some v => .ok v
  | none =>
    .fatal (econfig_lookup_error_msg (config_setting_source_file setting) name) EXIT_FAILURE

/-- Embeds `econfig_setting_get_elem` from src/econfig.h: a NULL element
(index out of range) aborts with the setting's source file and line. -/
def econfig_setting_get_elem (setting : Setting) (index : Nat) : EResult Setting :=
  match config_setting_get_elem setting index with
  | some s => .ok s
  | none => .fatal (econfig_setting_error_msg setting) EXIT_FAILURE

/-- Embeds the `econfig_setting_get_value` macro at T = int:
`config_setting_get_int(econfig_setting_lookup(setting, path))`. -/
def econfig_setting_get_value_int (setting : Setting) (path : String) : EResult Int :=
  match econfig_setting_lookup setting path with
  | .ok s => .ok (config_setting_get_int s)
  | .fatal m code => .fatal m code
  | .assertFail => .assertFail

/-- Embeds `econfig_setting_length` from src/econfig.h: asserts the
library-reported length is strictly positive. -/
def econfig_setting_length (setting : Setting) : EResult Int :=
  let length := config_setting_length setting
  if length > 0 then .ok length
  else .fatal (econfig_setting_error_msg setting) EXIT_FAILURE

/-- Modelled from the spec: a configuration source text either parses to a
root setting (well formed) or fails at some file and line (malformed). -/
inductive Source where
  | wellFormed : Setting → Source
  | malformed : String → Nat → Source

/-- Modelled from the spec: `config_read_file` — the library's file-read
primitive succeeds exactly on well-formed sources. -/
def config_read_file : Source → Option Config
  | .wellFormed r => some ⟨r⟩
  | .malformed _ _ => none

/-- Modelled from the spec: `config_error_file` — the file the library
reports for a parse failure. -/
def config_error_file : Source → String
  | .wellFormed _ => ""
  | .malformed f _ => f

/-- Modelled from the spec: `config_error_line` — the line the library
reports for a parse failure. -/
def config_error_line : Source → Nat
  | .wellFormed _ => 0
  | .malformed _ l => l

/-- Embeds the `econfig_read_file` macro: on parse failure, prints the
library-reported error file and line and exits. -/
def econfig_read_file (src : Source) : EResult Config :=
  match config_read_file src with
  | some cfg => .ok cfg
  | none => .fatal (econfig_read_error_msg (config_error_file src) (config_error_line src)) EXIT_FAILURE

end Econfig

namespace Econfig

example : pathComponents "." = [] := rfl
example : pathComponents "a.b" = ["a", "b"] := rfl

/-- A path of only the separator has no components, so the root lookup
`config_lookup(config, ".")` always returns the root setting. -/
theorem config_lookup_dot (c : Config) : config_lookup c "." = some c.root := rfl

/-- The checked lookup of "." always succeeds with the root setting. -/
theorem econfig_lookup_dot (c : Config) : econfig_lookup c "." = EResult.ok c.root := by
  simp [econfig_lookup, config_lookup_dot]

/-- The spec's example document `{ a = 5; b = [1,2,3]; }`. -/
def sampleRoot : Setting :=
  .groupS "example.cfg" 1
    [("a", .intS "example.cfg" 1 5),
     ("b", .listS "example.cfg" 1
        [.intS "example.cfg" 1 1, .intS "example.cfg" 1 2, .intS "example.cfg" 1 3])]

/-- A configuration handle for the sample document. -/
def sampleConfig : Config := ⟨sampleRoot⟩

example : config_lookup sampleConfig "a" = some (.intS "example.cfg" 1 5) := rfl
example : config_lookup sampleConfig "c" = none := rfl

end Econfig

namespace Econfig

/-- C1: for every configuration document and every path absent from it, the
checked lookup `econfig_lookup` terminates the process with the failure
exit status (never returning a sentinel), writing the single stderr line
"error occured in <file>: unable to find <path>", where <file> is the
document's source file and <path> the missing path. -/
theorem econfig_lookup_absent_fatal (c : Config) (path : String)
    (h : config_lookup c path = none) :
    econfig_lookup c path =
      EResult.fatal
        ("error occured in " ++ config_setting_source_file c.root
          ++ ": unable to find " ++ path ++ "\n") EXIT_FAILURE := by
  simp [econfig_lookup, config_lookup_dot, h, econfig_lookup_error_msg]

/-- Witness for C1: in the sample document, path "c" is absent and the
checked lookup aborts with the exact diagnostic line. -/
theorem econfig_lookup_absent_fatal_witness :
    econfig_lookup sampleConfig "c" =
      EResult.fatal "error occured in example.cfg: unable to find c\n" EXIT_FAILURE :=
  (econfig_lookup_absent_fatal sampleConfig "c" rfl).trans rfl

/-- C2: for every document and every present path, the checked lookups
return exactly the setting the library's unchecked lookups return, with no
diagnostic and no termination — both at document level (`econfig_lookup`
refines `config_lookup`) and at setting level (`econfig_setting_lookup`
refines `config_setting_lookup`). -/
theorem econfig_lookup_present_refines (c : Config) (st : Setting) (p : String) (s : Setting) :
    (config_lookup c p = some s → econfig_lookup c p = EResult.ok s) ∧
    (config_setting_lookup st p = some s → econfig_setting_lookup st p = EResult.ok s) := by
  constructor
  · intro h
    simp [econfig_lookup, config_lookup_dot, h]
  · intro h
    simp [econfig_setting_lookup, h]

/-- Witness for C2: in the sample document, path "a" is present and both
checked lookups return the library's setting. -/
theorem econfig_lookup_present_refines_witness :
    econfig_lookup sampleConfig "a" = EResult.ok (Setting.intS "example.cfg" 1 5) ∧
    econfig_setting_lookup sampleRoot "a" = EResult.ok (Setting.intS "example.cfg" 1 5) :=
  ⟨(econfig_lookup_present_refines sampleConfig sampleRoot "a"
      (Setting.intS "example.cfg" 1 5)).1 rfl,
   (econfig_lookup_present_refines sampleConfig sampleRoot "a"
      (Setting.intS "example.cfg" 1 5)).2 rfl⟩

/-- C3: the try accessor is a total function (it never terminates the
process): an absent path yields the zero default, and a present path yields
the setting's actual value, which is exactly what the required accessor
`econfig_get_value` returns for that path. -/
theorem econfig_try_get_value_total (c : Config) (p : String) :
    (config_lookup c p = none → econfig_try_get_value_int c p = 0) ∧
    (∀ s, config_lookup c p = some s →
      econfig_try_get_value_int c p = config_setting_get_int s ∧
      econfig_get_value_int c p = EResult.ok (econfig_try_get_value_int c p)) := by
  constructor
  · intro h
    simp [econfig_try_get_value_int, h]
  · intro s h
    constructor
    · simp [econfig_try_get_value_int, h]
    · simp [econfig_get_value_int, econfig_lookup, config_lookup_dot, h,
        econfig_try_get_value_int]

/-- Witness for C3: per the spec example, the try accessor returns 0 for
the absent path "c" and 5 for the present path "a", matching
`econfig_get_value`. -/
theorem econfig_try_get_value_total_witness :
    econfig_try_get_value_int sampleConfig "c" = 0 ∧
    econfig_try_get_value_int sampleConfig "a" = 5 ∧
    econfig_get_value_int sampleConfig "a" = EResult.ok 5 :=
  ⟨(econfig_try_get_value_total sampleConfig "c").1 rfl,
   ((econfig_try_get_value_total sampleConfig "a").2
      (Setting.intS "example.cfg" 1 5) rfl).1,
   ((econfig_try_get_value_total sampleConfig "a").2
      (Setting.intS "example.cfg" 1 5) rfl).2.trans rfl⟩

/-- C4: document loading terminates the process exactly on malformed
documents: a well-formed source loads silently into a configuration handle
holding its root, and a malformed source aborts with the failure exit
status after the stderr line "error occured in <file>:<line>" naming the
library-reported file and line. -/
theorem econfig_read_file_iff_malformed (src : Source) :
    (∀ r, src = Source.wellFormed r → econfig_read_file src = EResult.ok ⟨r⟩) ∧
    (∀ f l, src = Source.malformed f l →
      econfig_read_file src =
        EResult.fatal ("error occured in " ++ f ++ ":" ++ toString l ++ "\n") EXIT_FAILURE) := by
  constructor
  · intro r h
    subst h
    rfl
  · intro f l h
    subst h
    rfl

/-- Witness for C4: a well-formed source loads silently; a malformed source
reported at bad.cfg line 7 aborts with the exact diagnostic line. -/
theorem econfig_read_file_iff_malformed_witness :
    econfig_read_file (Source.wellFormed sampleRoot) = EResult.ok sampleConfig ∧
    econfig_read_file (Source.malformed "bad.cfg" 7) =
      EResult.fatal "error occured in bad.cfg:7\n" EXIT_FAILURE :=
  ⟨(econfig_read_file_iff_malformed (Source.wellFormed sampleRoot)).1 sampleRoot rfl,
   ((econfig_read_file_iff_malformed (Source.malformed "bad.cfg" 7)).2 "bad.cfg" 7 rfl).trans rfl⟩

end Econfig

namespace Econfig

/-- The list setting `b = [1,2,3]` of the spec's example document. -/
def sampleList : Setting :=
  .listS "example.cfg" 1
    [.intS "example.cfg" 1 1, .intS "example.cfg" 1 2, .intS "example.cfg" 1 3]

/-- A document with a string setting `s` (so an int access is a type
mismatch) and an int setting `n`. -/
def mismatchRoot : Setting :=
  .groupS "types.cfg" 1
    [("s", .strS "types.cfg" 2 "hello"), ("n", .intS "types.cfg" 3 42)]

/-- A configuration handle for the mismatch document. -/
def mismatchConfig : Config := ⟨mismatchRoot⟩

/-- C5: for every setting node and index, the checked element access
returns exactly the element the library's unchecked accessor returns when
the index is within the children's bounds, and aborts with the stderr line
"error occured in <file>:<line>" (the setting's source file and line) and
the failure exit status when it is out of bounds. -/
theorem econfig_setting_get_elem_spec (s : Setting) (i : Nat) :
    (∀ h : i < (settingChildren s).length,
      config_setting_get_elem s i = some ((settingChildren s).get ⟨i, h⟩) ∧
      econfig_setting_get_elem s i = EResult.ok ((settingChildren s).get ⟨i, h⟩)) ∧
    ((settingChildren s).length ≤ i →
      econfig_setting_get_elem s i =
        EResult.fatal ("error occured in " ++ config_setting_source_file s ++ ":"
          ++ toString (config_setting_source_line s) ++ "\n") EXIT_FAILURE) := by
  constructor
  · intro h
    have hg : config_setting_get_elem s i = some ((settingChildren s).get ⟨i, h⟩) := by
      simp [config_setting_get_elem, List.getElem?_eq_getElem h]
    exact ⟨hg, by simp [econfig_setting_get_elem, hg]⟩
  · intro h
    have hg : config_setting_get_elem s i = none := by
      simp [config_setting_get_elem, List.getElem?_eq_none_iff]
      exact h
    simp [econfig_setting_get_elem, hg, econfig_setting_error_msg]

/-- Witness for C5: element 1 of the sample list is the library's element
2, and element 5 (out of bounds, as in the spec example) aborts with the
setting's source file and line. -/
theorem econfig_setting_get_elem_spec_witness :
    econfig_setting_get_elem sampleList 1 = EResult.ok (Setting.intS "example.cfg" 1 2) ∧
    econfig_setting_get_elem sampleList 5 =
      EResult.fatal "error occured in example.cfg:1\n" EXIT_FAILURE :=
  ⟨(((econfig_setting_get_elem_spec sampleList 1).1 (by decide)).2).trans rfl,
   ((econfig_setting_get_elem_spec sampleList 5).2 (by decide)).trans rfl⟩

/-- Counterexample for C6: in the mismatch document, path "s" is present
but holds a string; the library's typed lookup reports the mismatch
(config_lookup_int returns none), yet `econfig_get_value` (T = int)
returns the zero default with no diagnostic and no termination — unlike
`econfig_lookup_value`, which does abort — so a type mismatch does not
fail like a lookup miss for every typed operation, refuting the claim. -/
theorem econfig_get_value_mismatch_no_abort :
    config_lookup mismatchConfig "s" = some (Setting.strS "types.cfg" 2 "hello") ∧
    config_lookup_int mismatchConfig "s" = none ∧
    econfig_get_value_int mismatchConfig "s" = EResult.ok 0 ∧
    econfig_lookup_value_int mismatchConfig "s" =
      EResult.fatal "error occured in types.cfg: unable to find s\n" EXIT_FAILURE :=
  ⟨rfl, rfl, rfl, rfl⟩

/-- C6 (amended): every typed operation performs the checked lookup and
then extracts the typed value, but only the lookup_value family
(`econfig_lookup_value`, `econfig_setting_lookup_value`), built on the
library's typed lookups, treats a type mismatch exactly like a miss
(diagnostic plus termination); the get_value family (`econfig_get_value`,
`econfig_setting_get_value`) aborts only on a path miss, and on a type
mismatch at a present path returns the library getter's zero default with
no termination. -/
theorem econfig_typed_value_ops_spec (c : Config) (st : Setting) (p nm : String) :
    (config_lookup_int c p = none →
      econfig_lookup_value_int c p =
        EResult.fatal (econfig_lookup_error_msg (config_setting_source_file c.root) p)
          EXIT_FAILURE) ∧
    (config_setting_lookup_int st nm = none →
      econfig_setting_lookup_value_int st nm =
        EResult.fatal (econfig_lookup_error_msg (config_setting_source_file st) nm)
          EXIT_FAILURE) ∧
    (∀ v, config_lookup_int c p = some v → econfig_lookup_value_int c p = EResult.ok v) ∧
    (∀ v, config_setting_lookup_int st nm = some v →
      econfig_setting_lookup_value_int st nm = EResult.ok v) ∧
    (∀ s, config_lookup c p = some s →
      econfig_get_value_int c p = EResult.ok (config_setting_get_int s)) ∧
    (∀ s, config_setting_lookup st nm = some s →
      econfig_setting_get_value_int st nm = EResult.ok (config_setting_get_int s)) ∧
    (config_lookup c p = none →
      econfig_get_value_int c p =
        EResult.fatal (econfig_lookup_error_msg (config_setting_source_file c.root) p)
          EXIT_FAILURE) := by
  refine ⟨?_, ?_, ?_, ?_, ?_, ?_, ?_⟩
  · intro h
    simp [econfig_lookup_value_int, h, econfig_lookup_dot]
  · intro h
    simp [econfig_setting_lookup_value_int, h]
  · intro v h
    simp [econfig_lookup_value_int, h]
  · intro v h
    simp [econfig_setting_lookup_value_int, h]
  · intro s h
    simp [econfig_get_value_int, econfig_lookup, config_lookup_dot, h]
  · intro s h
    simp [econfig_setting_get_value_int, econfig_setting_lookup, h]
  · intro h
    simp [econfig_get_value_int, econfig_lookup, config_lookup_dot, h]

/-- Witness for C6 (amended): in the mismatch document, the typed lookups
abort on the string setting "s", succeed with 42 on the int setting "n",
and the get_value family returns 0 on the mismatched "s" without abort. -/
theorem econfig_typed_value_ops_spec_witness :
    econfig_lookup_value_int mismatchConfig "s" =
      EResult.fatal "error occured in types.cfg: unable to find s\n" EXIT_FAILURE ∧
    econfig_setting_lookup_value_int mismatchRoot "s" =
      EResult.fatal "error occured in types.cfg: unable to find s\n" EXIT_FAILURE ∧
    econfig_lookup_value_int mismatchConfig "n" = EResult.ok 42 ∧
    econfig_setting_lookup_value_int mismatchRoot "n" = EResult.ok 42 ∧
    econfig_get_value_int mismatchConfig "s" = EResult.ok 0 ∧
    econfig_setting_get_value_int mismatchRoot "s" = EResult.ok 0 :=
  ⟨((econfig_typed_value_ops_spec mismatchConfig mismatchRoot "s" "s").1 rfl).trans rfl,
   ((econfig_typed_value_ops_spec mismatchConfig mismatchRoot "s" "s").2.1 rfl).trans rfl,
   (econfig_typed_value_ops_spec mismatchConfig mismatchRoot "n" "n").2.2.1 42 rfl,
   (econfig_typed_value_ops_spec mismatchConfig mismatchRoot "n" "n").2.2.2.1 42 rfl,
   ((econfig_typed_value_ops_spec mismatchConfig mismatchRoot "s" "s").2.2.2.2.1
      (Setting.strS "types.cfg" 2 "hello") rfl).trans rfl,
   ((econfig_typed_value_ops_spec mismatchConfig mismatchRoot "s" "s").2.2.2.2.2.1
      (Setting.strS "types.cfg" 2 "hello") rfl).trans rfl⟩

/-- C7: the checked length delegates to the library's length primitive and
returns its result exactly when it is strictly positive; on a non-positive
length (an empty aggregate or a scalar) it aborts with the stderr line
"error occured in <file>:<line>" (the setting's source file and line) and
the failure exit status. -/
theorem econfig_setting_length_spec (s : Setting) :
    (0 < config_setting_length s →
      econfig_setting_length s = EResult.ok (config_setting_length s)) ∧
    (config_setting_length s ≤ 0 →
      econfig_setting_length s =
        EResult.fatal ("error occured in " ++ config_setting_source_file s ++ ":"
          ++ toString (config_setting_source_line s) ++ "\n") EXIT_FAILURE) := by
  constructor
  · intro h
    simp [econfig_setting_length, h]
  · intro h
    have hng : ¬ config_setting_length s > 0 := by omega
    simp [econfig_setting_length, hng, econfig_setting_error_msg]

/-- Witness for C7: the sample list has positive length 3 and the checked
length returns it; an empty group aborts with its source file and line. -/
theorem econfig_setting_length_spec_witness :
    econfig_setting_length sampleList = EResult.ok 3 ∧
    econfig_setting_length (Setting.groupS "empty.cfg" 4 []) =
      EResult.fatal "error occured in empty.cfg:4\n" EXIT_FAILURE :=
  ⟨((econfig_setting_length_spec sampleList).1 (by decide)).trans rfl,
   ((econfig_setting_length_spec (Setting.groupS "empty.cfg" 4 [])).2 (by decide)).trans rfl⟩

end Econfig

namespace Econfig

/-- C8: for every configuration handle, the root-path lookup
`config_lookup(config, ".")` returns the root setting (non-NULL), so the
`assert(s_file)` inside `econfig_lookup` and `econfig_lookup_value` never
fires, and whenever either operation aborts on a lookup miss the stderr
line names the document's own source file, taken from the root setting. -/
theorem econfig_root_lookup_safe (c : Config) (p : String) :
    config_lookup c "." = some c.root ∧
    econfig_lookup c p ≠ EResult.assertFail ∧
    econfig_lookup_value_int c p ≠ EResult.assertFail ∧
    (∀ m e, econfig_lookup c p = EResult.fatal m e →
      m = econfig_lookup_error_msg (config_setting_source_file c.root) p) ∧
    (∀ m e, econfig_lookup_value_int c p = EResult.fatal m e →
      m = econfig_lookup_error_msg (config_setting_source_file c.root) p) := by
  refine ⟨config_lookup_dot c, ?_, ?_, ?_, ?_⟩
  · cases h : config_lookup c p <;>
      simp [econfig_lookup, config_lookup_dot, h]
  · cases h : config_lookup_int c p <;>
      simp [econfig_lookup_value_int, h, econfig_lookup_dot]
  · intro m e hme
    cases h : config_lookup c p
    · simp [econfig_lookup, config_lookup_dot, h] at hme
      simp_all
    · simp [econfig_lookup, config_lookup_dot, h] at hme
  · intro m e hme
    cases h : config_lookup_int c p
    · simp [econfig_lookup_value_int, h, econfig_lookup_dot] at hme
      simp_all
    · simp [econfig_lookup_value_int, h, econfig_lookup_dot] at hme

/-- Witness for C8: on the sample document, both fatal diagnostics for the
missing path "c" name the document's own source file from the root. -/
theorem econfig_root_lookup_safe_witness :
    "error occured in example.cfg: unable to find c\n" =
      econfig_lookup_error_msg (config_setting_source_file sampleConfig.root) "c" ∧
    "error occured in example.cfg: unable to find c\n" =
      econfig_lookup_error_msg (config_setting_source_file sampleConfig.root) "c" ∧
    config_lookup sampleConfig "." = some sampleConfig.root :=
  ⟨(econfig_root_lookup_safe sampleConfig "c").2.2.2.1
      "error occured in example.cfg: unable to find c\n" EXIT_FAILURE rfl,
   (econfig_root_lookup_safe sampleConfig "c").2.2.2.2
      "error occured in example.cfg: unable to find c\n" EXIT_FAILURE rfl,
   (econfig_root_lookup_safe sampleConfig "c").1⟩

/-- Stateful form of `config_lookup`: the library primitive takes a const
handle (read-only by its signature), so it returns the configuration
unchanged alongside its result. -/
def config_lookupS (path : String) (c : Config) : Option Setting × Config :=
  (config_lookup c path, c)

/-- Stateful form of `config_setting_lookup`. -/
def config_setting_lookupS (path : String) (s : Setting) : Option Setting × Setting :=
  (config_setting_lookup s path, s)

/-- Stateful form of `config_setting_get_elem` (const setting). -/
def config_setting_get_elemS (index : Nat) (s : Setting) : Option Setting × Setting :=
  (config_setting_get_elem s index, s)

/-- Stateful form of `config_setting_length` (const setting). -/
def config_setting_lengthS (s : Setting) : Int × Setting :=
  (config_setting_length s, s)

/-- Stateful embedding of `econfig_lookup`, threading the configuration
through the two library calls in source order. -/
def econfig_lookupS (path : String) (c : Config) : EResult Setting × Config :=
  let r1 := config_lookupS path c
  let r2 := config_lookupS "." r1.2
  match r2.1 with
  | none => (.assertFail, r2.2)
  | some s_file =>
    match r1.1 with
    | some s => (.ok s, r2.2)
    | none =>
      (.fatal (econfig_lookup_error_msg (config_setting_source_file s_file) path) EXIT_FAILURE,
        r2.2)

/-- Stateful embedding of `econfig_setting_lookup`. -/
def econfig_setting_lookupS (path : String) (st : Setting) : EResult Setting × Setting :=
  let r := config_setting_lookupS path st
  match r.1 with
  | some s => (.ok s, r.2)
  | none =>
    (.fatal (econfig_lookup_error_msg (config_setting_source_file r.2) path) EXIT_FAILURE, r.2)

/-- Stateful embedding of `econfig_setting_get_elem`. -/
def econfig_setting_get_elemS (index : Nat) (st : Setting) : EResult Setting × Setting :=
  let r := config_setting_get_elemS index st
  match r.1 with
  | some s => (.ok s, r.2)
  | none => (.fatal (econfig_setting_error_msg r.2) EXIT_FAILURE, r.2)

/-- Stateful embedding of `econfig_setting_length`. -/
def econfig_setting_lengthS (st : Setting) : EResult Int × Setting :=
  let r := config_setting_lengthS st
  if r.1 > 0 then (.ok r.1, r.2) else (.fatal (econfig_setting_error_msg r.2) EXIT_FAILURE, r.2)

/-- Stateful embedding of the `econfig_get_value` macro at T = int. -/
def econfig_get_value_intS (path : String) (c : Config) : EResult Int × Config :=
  let r := econfig_lookupS path c
  match r.1 with
  | .ok s => (.ok (config_setting_get_int s), r.2)
  | .fatal m code => (.fatal m code, r.2)
  | .assertFail => (.assertFail, r.2)

/-- C9: every checked accessor of the layer is read-only: in the stateful
embedding, where each library call threads the document or setting node it
reads, the tree after the call equals the tree before it, and the result
agrees with the pure embedding. -/
theorem econfig_ops_read_only (c : Config) (st : Setting) (p : String) (i : Nat) :
    (econfig_lookupS p c).2 = c ∧
    (econfig_lookupS p c).1 = econfig_lookup c p ∧
    (econfig_setting_lookupS p st).2 = st ∧
    (econfig_setting_lookupS p st).1 = econfig_setting_lookup st p ∧
    (econfig_setting_get_elemS i st).2 = st ∧
    (econfig_setting_get_elemS i st).1 = econfig_setting_get_elem st i ∧
    (econfig_setting_lengthS st).2 = st ∧
    (econfig_setting_lengthS st).1 = econfig_setting_length st ∧
    (econfig_get_value_intS p c).2 = c ∧
    (econfig_get_value_intS p c).1 = econfig_get_value_int c p := by
  refine ⟨?_, ?_, ?_, ?_, ?_, ?_, ?_, ?_, ?_, ?_⟩ <;>
    first
    | (cases h1 : config_lookup c "." <;> cases h2 : config_lookup c p <;>
        simp [econfig_lookupS, config_lookupS, econfig_lookup, econfig_get_value_intS,
          econfig_get_value_int, h1, h2])
    | (cases h : config_setting_lookup st p <;>
        simp [econfig_setting_lookupS, config_setting_lookupS, econfig_setting_lookup, h])
    | (cases h : config_setting_get_elem st i <;>
        simp [econfig_setting_get_elemS, config_setting_get_elemS, econfig_setting_get_elem, h])
    | (by_cases h : config_setting_length st > 0 <;>
        simp [econfig_setting_lengthS, config_setting_lengthS, econfig_setting_length, h])

/-- C10: the try accessor's two evaluations of `config_lookup` agree — the
second lookup, run from the state the first leaves behind, returns the
same node — so `econfig_try_get_value` coincides with its
single-evaluation form and is deterministic: two runs on the same document
and path produce the same result. -/
theorem econfig_try_double_eval_deterministic (c : Config) (p : String) :
    (config_lookupS p ((config_lookupS p c).2)).1 = (config_lookupS p c).1 ∧
    econfig_try_get_value_int c p = econfig_try_get_value_int_single c p := by
  constructor
  · rfl
  · cases h : config_lookup c p <;>
      simp [econfig_try_get_value_int, econfig_try_get_value_int_single, h]

end Econfig
